import Mathlib

/-!
Verification of the restaurant ordering backend: shallow embedding of the
checkout-to-order transaction engine (api/customer/checkout POST), the
payment-confirmation state machine (api/customer/orders/[code] POST/GET),
and the cart clearing route (api/cart DELETE), together with proofs of the
specified consistency properties.

The database is modelled as lists of rows; Prisma queries become list
operations: findUnique/findFirst are List.find?, update-where-id maps the
matching row, delete-where filters it out, relation include is a join via
List.find? on the foreign key.  Machine integers are Nat (money,
quantities) and Int (stock, which the code can drive below zero).
-/

namespace Resto

/-- Product row: id, name, unit price (smallest currency unit), stock and
active flag.  Stock is an Int because the confirmation transaction
decrements it unconditionally.  (imageUrl/category are carried by the
routes but never read by the modelled control flow, so they are omitted.) -/
structure Product where
  id : Nat
  name : String
  price : Nat
  stock : Int
  isActive : Bool
deriving DecidableEq

/-- Cart line: references a product and carries the requested quantity. -/
structure CartItem where
  productId : Nat
  qty : Nat
deriving DecidableEq

/-- Cart row: one per customer, with its line items. -/
structure Cart where
  customerId : Nat
  items : List CartItem
deriving DecidableEq

/-- Order lifecycle states (AWAITING_PAYMENT to PAID). -/
inductive OrderStatus
  | awaitingPayment
  | paid
deriving DecidableEq

/-- diningType field of the checkout payload. -/
inductive DiningType
  | dineIn
  | takeAway
deriving DecidableEq

/-- paymentChoice field of the checkout payload. -/
inductive PaymentChoice
  | cash
  | cashless
deriving DecidableEq

/-- OrderLine row: denormalized copy of product id, qty, unit price at
purchase time, and line total. -/
structure OrderLine where
  productId : Nat
  qty : Nat
  price : Nat
  total : Nat
deriving DecidableEq

/-- A calendar date (local time), used for the daily queue-number scope and
the code rendering. -/
structure DateD where
  year : Nat
  month : Nat
  day : Nat
deriving DecidableEq

/-- Order row, as created by the checkout transaction.  The order lines are
stored inline (the routes always read them through the include-join).
closedAt is an abstract timestamp recorded at payment confirmation. -/
structure Order where
  id : Nat
  code : String
  queueNumber : String
  diningType : DiningType
  status : OrderStatus
  subtotal : Nat
  discount : Nat
  tax : Nat
  total : Nat
  customerId : Nat
  createdDate : DateD
  closedAt : Option Nat
  items : List OrderLine
deriving DecidableEq

/-- Database state: the tables touched by the modelled routes.  nextId
stands for the id generator of the order table. -/
structure DB where
  products : List Product
  carts : List Cart
  orders : List Order
  nextId : Nat
deriving DecidableEq

/-- Environment of the gateway branch: MIDTRANS_SERVER_KEY, and the outcome
of snap.createTransactionToken (some token = remote call returns it,
none = the remote call throws). -/
structure Env where
  serverKey : Option String
  gatewayToken : Option String
deriving DecidableEq

/-- JS String.prototype.padStart: left-pad with c up to width w; strings
already at least w long are returned unchanged. -/
def padStart (s : String) (w : Nat) (c : Char) : String :=
  String.mk (List.replicate (w - s.length) c) ++ s

/-- prisma.product.findUnique on the id column. -/
def findProduct (pid : Nat) (ps : List Product) : Option Product :=
  ps.find? (fun p => p.id == pid)

/-- Stock of the product row with the given id, when present. -/
def stockOf (pid : Nat) (ps : List Product) : Option Int :=
  (findProduct pid ps).map (fun p => p.stock)

/-- prisma.cart.findUnique on the customerId column. -/
def findCart (uid : Nat) (db : DB) : Option Cart :=
  db.carts.find? (fun c => c.customerId == uid)

/-- prisma.order.findUnique on the (unique) code column. -/
def findOrder (code : String) (db : DB) : Option Order :=
  db.orders.find? (fun o => o.code == code)

/-- One line of the checkout's cart snapshot: requested quantity joined
with the product row it references. -/
structure SnapItem where
  qty : Nat
  product : Product
deriving DecidableEq

/-- The cart snapshot read: each cart line joined (inner join on the
foreign key) with its product row. -/
def snapshotOf (c : Cart) (db : DB) : List SnapItem :=
  c.items.filterMap (fun it =>
    (findProduct it.productId db.products).map (fun p => { qty := it.qty, product := p }))

/-- Business precondition failures of the availability validator. -/
inductive VError
  | unavailable (name : String)
  | insufficient (name : String)
deriving DecidableEq

/-- The checkout validation loop over the snapshot, in order, fail-fast:
an inactive product fails first, then a quantity above current stock. -/
def validateItems : List SnapItem → Option VError
  | [] => none
  | it :: rest =>
    if !it.product.isActive then some (.unavailable it.product.name)
    else if (it.qty : Int) > it.product.stock then some (.insufficient it.product.name)
    else validateItems rest

/-- cart.items.reduce((s, it) => s + it.product.price * it.qty, 0). -/
def subtotalOf (snap : List SnapItem) : Nat :=
  snap.foldl (fun s it => s + it.product.price * it.qty) 0

/-- prisma.order.count over createdAt between start and end of the local
day: the number of orders created on that date. -/
def todayCount (today : DateD) (db : DB) : Nat :=
  (db.orders.filter (fun o => o.createdDate == today)).length

/-- String(count + 1).padStart(3, "0"): the queue-number rendering applied
to a given same-day order count. -/
def queueNumberOfCount (count : Nat) : String :=
  padStart (Nat.repr (count + 1)) 3 '0'

/-- getTodayQueueNumber: count today's orders and render count + 1. -/
def getTodayQueueNumber (today : DateD) (db : DB) : String :=
  queueNumberOfCount (todayCount today db)

/-- makeOrderCode: ORD-YYYYMMDD-queueNumber with 2-padded month and day. -/
def makeOrderCode (today : DateD) (queueNumber : String) : String :=
  "ORD-" ++ Nat.repr today.year ++ padStart (Nat.repr today.month) 2 '0'
    ++ padStart (Nat.repr today.day) 2 '0' ++ "-" ++ queueNumber

/-- The order code the checkout allocates against a given database state. -/
def todayCode (today : DateD) (db : DB) : String :=
  makeOrderCode today (getTodayQueueNumber today db)

/-- Responses of the checkout route: err carries the HTTP status and the
error message; okCash mirrors the ok:true body with payment method CASH;
okCashless additionally carries the gateway transaction id and snap token
(payment method CASHLESS). -/
inductive CheckoutResp
  | err (status : Nat) (msg : String)
  | okCash (orderId : Nat) (code : String) (total : Nat)
  | okCashless (orderId : Nat) (code : String) (mid : String) (total : Nat) (snapToken : String)
deriving DecidableEq

/-- The order lines the transaction creates from the snapshot: product id,
qty, locked unit price, and line total. -/
def mkLines (snap : List SnapItem) : List OrderLine :=
  snap.map (fun it =>
    { productId := it.product.id, qty := it.qty, price := it.product.price
      total := it.product.price * it.qty })

/-- HTTP rendering of a validation failure (both are 409). -/
def vErrResp : VError → CheckoutResp
  | .unavailable n => .err 409 ("Produk " ++ n ++ " tidak tersedia.")
  | .insufficient n => .err 409 ("Stok " ++ n ++ " tidak mencukupi.")

/-- POST /api/customer/checkout (authenticated, payload already parsed):
load the cart snapshot, reject an absent or empty cart, validate lines
fail-fast, price the snapshot, allocate the daily queue number and code,
then atomically create the order with its lines and delete the cart; a
uniqueness violation on the code aborts the transaction and the outer
catch returns the generic 500.  For CASHLESS, after the commit: a missing
server key yields the 500 configuration error, a throwing token call is
caught as the generic 500 — in both cases the committed order persists. -/
def checkout (env : Env) (today : DateD) (uid : Nat) (dt : DiningType)
    (pc : PaymentChoice) (db : DB) : CheckoutResp × DB :=
  match findCart uid db with
  | none => (.err 409 "Keranjang kosong.", db)
  | some c =>
    if c.items.isEmpty then (.err 409 "Keranjang kosong.", db)
    else
      let snap := snapshotOf c db
      match validateItems snap with
      | some e => (vErrResp e, db)
      | none =>
        let subtotal := subtotalOf snap
        let discount := 0
        let tax := 0
        let total := subtotal - discount + tax
        let queueNumber := getTodayQueueNumber today db
        let code := makeOrderCode today queueNumber
        if db.orders.any (fun o => o.code == code) then
          (.err 500 "Terjadi kesalahan pada server.", db)
        else
          let order : Order :=
            { id := db.nextId, code := code, queueNumber := queueNumber
              diningType := dt, status := .awaitingPayment
              subtotal := subtotal, discount := discount, tax := tax, total := total
              customerId := uid, createdDate := today, closedAt := none
              items := mkLines snap }
          let db1 : DB :=
            { db with orders := db.orders ++ [order]
                      carts := db.carts.filter (fun cc => !(cc.customerId == uid))
                      nextId := db.nextId + 1 }
          match pc with
          | .cash => (.okCash order.id code total, db1)
          | .cashless =>
            match env.serverKey with
            | none => (.err 500 "MIDTRANS_SERVER_KEY tidak dikonfigurasi.", db1)
            | some _ =>
              match env.gatewayToken with
              | none => (.err 500 "Terjadi kesalahan pada server.", db1)
              | some tok =>
                (.okCashless order.id code
                  (code ++ "-" ++ (Nat.repr order.id).take 8) total tok, db1)

/-- Responses of POST /api/customer/orders/[code]: 404 Not found,
ok:true already:true, or plain ok:true. -/
inductive ConfirmResp
  | notFound
  | already
  | ok
deriving DecidableEq

/-- tx.product.update with stock: decrement qty — every row matching the
id has its stock lowered by qty. -/
def decrementStock (pid : Nat) (q : Nat) (ps : List Product) : List Product :=
  ps.map (fun p => if p.id == pid then { p with stock := p.stock - (q : Int) } else p)

/-- The confirmation transaction's loop over the order lines, decrementing
each referenced product's stock by the line quantity. -/
def applyDecrements (lines : List OrderLine) (ps : List Product) : List Product :=
  lines.foldl (fun acc it => decrementStock it.productId it.qty acc) ps

/-- tx.order.update where id: set status PAID and record closedAt. -/
def setPaid (oid : Nat) (now : Nat) (os : List Order) : List Order :=
  os.map (fun o => if o.id == oid then { o with status := .paid, closedAt := some now } else o)

/-- The body of the confirmation's prisma.$transaction: decrement stock per
line, then mark the (pre-fetched) order PAID with a closure timestamp. -/
def confirmTx (o : Order) (now : Nat) (db : DB) : DB :=
  { db with products := applyDecrements o.items db.products
            orders := setPaid o.id now db.orders }

/-- POST /api/customer/orders/[code]: fetch the order by code, 404 when
absent, return already:true when it is PAID, otherwise run the
transaction.  The status check is a pre-check outside the transaction,
exactly as in the source. -/
def confirm (now : Nat) (code : String) (db : DB) : ConfirmResp × DB :=
  match findOrder code db with
  | none => (.notFound, db)
  | some o =>
    if o.status == .paid then (.already, db)
    else (.ok, confirmTx o now db)

/-- One item of the GET /api/customer/orders/[code] response body. -/
structure OrderItemView where
  productName : String
  qty : Nat
  price : Nat
  total : Nat
deriving DecidableEq

/-- GET /api/customer/orders/[code] response body. -/
structure OrderView where
  code : String
  status : OrderStatus
  total : Nat
  items : List OrderItemView
deriving DecidableEq

/-- GET /api/customer/orders/[code]: findFirst on code and owner, then
project the stored totals and line prices; only the product name is read
from the live catalog. -/
def getOrder (uid : Nat) (code : String) (db : DB) : Option OrderView :=
  (db.orders.find? (fun o => o.code == code && o.customerId == uid)).map (fun o =>
    { code := o.code, status := o.status, total := o.total
      items := o.items.map (fun it =>
        { productName := ((findProduct it.productId db.products).map (fun p => p.name)).getD ""
          qty := it.qty, price := it.price, total := it.total }) })

/-- Modelled from the spec: the catalog price mutation (catalog CRUD is an
external collaborator of this core; the repository only ships product
creation).  Sets the unit price of the product with the given id. -/
def priceUpdate (pid : Nat) (q : Nat) (p : Product) : Product :=
  if p.id == pid then { p with price := q } else p

/-- Modelled from the spec: apply the catalog price change to the store. -/
def setPrice (pid : Nat) (q : Nat) (db : DB) : DB :=
  { db with products := db.products.map (priceUpdate pid q) }

/-- Response of DELETE /api/cart (the route can only answer ok:true once
authenticated). -/
structure CartDeleteResp where
  ok : Bool
deriving DecidableEq

/-- prisma.cart.delete where customerId: deletes the row, or throws (none)
when no cart exists for that customer. -/
def tryDeleteCart (uid : Nat) (db : DB) : Option DB :=
  match findCart uid db with
  | some _ => some { db with carts := db.carts.filter (fun c => !(c.customerId == uid)) }
  | none => none

/-- DELETE /api/cart: the delete error is swallowed by .catch(() => null)
and the route answers ok:true regardless. -/
def deleteCartRoute (uid : Nat) (db : DB) : CartDeleteResp × DB :=
  match tryDeleteCart uid db with
  | some db1 => ({ ok := true }, db1)
  | none => ({ ok := true }, db)

/-- Total quantity the confirmation transaction removes from the product
with the given id: the sum of the quantities of the order lines that
reference it. -/
def lineSum (pid : Nat) (lines : List OrderLine) : Nat :=
  ((lines.filter (fun it => it.productId == pid)).map (fun it => it.qty)).sum

/-! ### List-level helper lemmas -/

theorem find?_map_pred_preserved {α : Type} (f : α → α) (p : α → Bool)
    (hf : ∀ a, p (f a) = p a) (l : List α) :
    (l.map f).find? p = (l.find? p).map f := by
  induction l with
  | nil => rfl
  | cons a l ih =>
    by_cases ha : p a
    · rw [List.map_cons, List.find?_cons_of_pos _ (by rw [hf]; exact ha),
        List.find?_cons_of_pos _ ha]
      rfl
    · rw [List.map_cons, List.find?_cons_of_neg _ (by rw [hf]; exact ha),
        List.find?_cons_of_neg _ ha, ih]

theorem lineSum_cons (pid : Nat) (it : OrderLine) (ls : List OrderLine) :
    lineSum pid (it :: ls) =
      (if it.productId == pid then it.qty else 0) + lineSum pid ls := by
  unfold lineSum
  rw [List.filter_cons]
  by_cases hb : (it.productId == pid) = true
  · rw [if_pos hb, if_pos hb, List.map_cons, List.sum_cons]
  · rw [if_neg hb, if_neg hb, Nat.zero_add]

theorem stockOf_decrementStock (pid' : Nat) (q : Nat) (pid : Nat) (ps : List Product) :
    stockOf pid (decrementStock pid' q ps) =
      (stockOf pid ps).map (fun s => if pid' = pid then s - (q : Int) else s) := by
  unfold stockOf decrementStock findProduct
  rw [find?_map_pred_preserved _ _ (fun p => by split <;> rfl)]
  cases hf : ps.find? (fun p => p.id == pid) with
  | none => rfl
  | some p =>
    have hid : p.id = pid := by simpa using List.find?_some hf
    by_cases hq : pid' = pid
    · subst hq
      simp [Option.map_some', hid]
    · have hq' : ¬ p.id = pid' := by rw [hid]; exact fun h => hq h.symm
      simp [Option.map_some', hq, hq']

theorem stockOf_applyDecrements (lines : List OrderLine) (ps : List Product) (pid : Nat) :
    stockOf pid (applyDecrements lines ps) =
      (stockOf pid ps).map (fun s => s - (lineSum pid lines : Int)) := by
  induction lines generalizing ps with
  | nil =>
    cases h : stockOf pid ps <;> simp [applyDecrements, lineSum, h]
  | cons it ls ih =>
    have h1 : applyDecrements (it :: ls) ps =
        applyDecrements ls (decrementStock it.productId it.qty ps) := rfl
    rw [h1, ih, stockOf_decrementStock, lineSum_cons]
    cases h : stockOf pid ps with
    | none => rfl
    | some s =>
      rw [Option.map_some', Option.map_some', Option.map_some']
      by_cases hq : it.productId = pid
      · have hb : (it.productId == pid) = true := by rw [hq]; exact beq_self_eq_true pid
        rw [if_pos hq, hb, if_pos rfl]
        congr 1
        push_cast
        ring
      · have hb : (it.productId == pid) = false := beq_eq_false_iff_ne.mpr hq
        rw [if_neg hq, hb]
        congr 1
        rw [if_neg (by simp), Nat.zero_add]

theorem find?_setPaid {code : String} {os : List Order} {o : Order} (now : Nat)
    (h : os.find? (fun x => x.code == code) = some o) :
    (setPaid o.id now os).find? (fun x => x.code == code) =
      some { o with status := .paid, closedAt := some now } := by
  induction os with
  | nil => simp at h
  | cons a os ih =>
    cases ha : (a.code == code) with
    | true =>
      rw [List.find?_cons, ha] at h
      injection h with h
      subst h
      unfold setPaid
      rw [List.map_cons, if_pos (beq_self_eq_true a.id), List.find?_cons, ha]
    | false =>
      rw [List.find?_cons, ha] at h
      unfold setPaid at *
      rw [List.map_cons]
      have hcode :
          (if (a.id == o.id) = true
            then { a with status := OrderStatus.paid, closedAt := some now }
            else a).code = a.code := by split <;> rfl
      rw [List.find?_cons]
      have hpred :
          ((if (a.id == o.id) = true
            then { a with status := OrderStatus.paid, closedAt := some now }
            else a).code == code) = false := by rw [hcode]; exact ha
      rw [hpred]
      exact ih h

theorem validateItems_none_bounds {snap : List SnapItem} (h : validateItems snap = none) :
    ∀ it ∈ snap, it.product.isActive = true ∧ (it.qty : Int) ≤ it.product.stock := by
  induction snap with
  | nil => intro it hit; cases hit
  | cons a rest ih =>
    unfold validateItems at h
    by_cases ha : a.product.isActive
    · rw [if_neg (by simp [ha])] at h
      by_cases hs : (a.qty : Int) > a.product.stock
      · rw [if_pos hs] at h; cases h
      · rw [if_neg hs] at h
        intro it hit
        rcases List.mem_cons.mp hit with rfl | hmem
        · exact ⟨ha, le_of_not_lt hs⟩
        · exact ih h it hmem
    · rw [if_pos (by simp [ha])] at h; cases h

theorem snapshot_findProduct {c : Cart} {db : DB} :
    ∀ it ∈ snapshotOf c db, findProduct it.product.id db.products = some it.product := by
  intro it hit
  unfold snapshotOf at hit
  rw [List.mem_filterMap] at hit
  obtain ⟨ci, _, hmap⟩ := hit
  cases hf : findProduct ci.productId db.products with
  | none => rw [hf] at hmap; cases hmap
  | some p =>
    rw [hf, Option.map_some'] at hmap
    injection hmap with hmap
    have hp : p.id = ci.productId := by
      have hf' : db.products.find? (fun q => q.id == ci.productId) = some p := hf
      simpa using List.find?_some hf'
    rw [← hmap]
    show findProduct p.id db.products = some p
    rw [hp]
    exact hf

theorem mkLines_pid_sublist (items : List CartItem) (db : DB) :
    ((mkLines (items.filterMap (fun it =>
        (findProduct it.productId db.products).map
          (fun p => ({ qty := it.qty, product := p } : SnapItem))))).map
      (fun l => l.productId)).Sublist (items.map (fun it => it.productId)) := by
  induction items with
  | nil => simp [mkLines]
  | cons it its ih =>
    rw [List.filterMap_cons]
    cases hf : findProduct it.productId db.products with
    | none =>
      rw [List.map_cons]
      exact ih.cons it.productId
    | some p =>
      have hp : p.id = it.productId := by
        have hf' : db.products.find? (fun q => q.id == it.productId) = some p := hf
        simpa using List.find?_some hf'
      rw [Option.map_some', List.map_cons]
      unfold mkLines at *
      rw [List.map_cons, List.map_cons]
      show (p.id :: _).Sublist _
      rw [hp]
      exact ih.cons₂ it.productId

theorem lineSum_eq_zero {pid : Nat} {lines : List OrderLine}
    (h : ∀ l ∈ lines, ¬ l.productId = pid) : lineSum pid lines = 0 := by
  unfold lineSum
  have : lines.filter (fun it => it.productId == pid) = [] := by
    rw [List.filter_eq_nil_iff]
    intro a ha
    simpa using h a ha
  rw [this]
  rfl

theorem lineSum_single {pid : Nat} {lines : List OrderLine}
    (hnd : (lines.map (fun l => l.productId)).Nodup)
    {l : OrderLine} (hl : l ∈ lines) (hpid : l.productId = pid) :
    lineSum pid lines = l.qty := by
  induction lines with
  | nil => cases hl
  | cons a ls ih =>
    rw [List.map_cons, List.nodup_cons] at hnd
    rcases List.mem_cons.mp hl with rfl | hmem
    · have hz : lineSum pid ls = 0 := by
        refine lineSum_eq_zero (fun x hx hxe => ?_)
        exact hnd.1 (hpid ▸ hxe ▸ List.mem_map_of_mem (fun q => q.productId) hx)
      rw [lineSum_cons, hz, if_pos (by simpa using hpid)]
      rfl
    · have hane : (a.productId == pid) = false := by
        refine beq_eq_false_iff_ne.mpr (fun he => hnd.1 ?_)
        rw [he, ← hpid]
        exact List.mem_map_of_mem (fun q => q.productId) hmem
      rw [lineSum_cons, hane, if_neg (by simp), Nat.zero_add]
      exact ih hnd.2 hmem

theorem subtotalOf_eq_sum (snap : List SnapItem) :
    subtotalOf snap = (snap.map (fun it => it.product.price * it.qty)).sum := by
  unfold subtotalOf
  have h : ∀ a : Nat, snap.foldl (fun s it => s + it.product.price * it.qty) a =
      a + (snap.map (fun it => it.product.price * it.qty)).sum := by
    induction snap with
    | nil => intro a; simp
    | cons it ls ih =>
      intro a
      rw [List.foldl_cons, ih, List.map_cons, List.sum_cons]
      omega
  rw [h 0, Nat.zero_add]

theorem padStart_length (s : String) (w : Nat) (c : Char) :
    (padStart s w c).length = max w s.length := by
  unfold padStart
  rw [String.length_append]
  have h1 : (String.mk (List.replicate (w - s.length) c)).length = w - s.length := by
    show (List.replicate (w - s.length) c).length = w - s.length
    exact List.length_replicate _ _
  rw [h1]
  omega

theorem find?_filter_out_none {α : Type} (q : α → Bool) (l : List α) :
    (l.filter (fun x => !(q x))).find? q = none := by
  rw [List.find?_eq_none]
  intro x hx
  rw [List.mem_filter] at hx
  simpa using hx.2

theorem find?_append_left_none {α : Type} {p : α → Bool} {l₁ : List α} (l₂ : List α)
    (h : l₁.find? p = none) : (l₁ ++ l₂).find? p = l₂.find? p := by
  rw [List.find?_append, h, Option.none_or]

/-! ### Concrete fixtures shared by witnesses and counterexamples -/

/-- Gateway environment with credentials configured and a reachable
gateway. -/
def envOk : Env := { serverKey := some "sk-test", gatewayToken := some "snap-token" }

/-- Gateway environment with MIDTRANS_SERVER_KEY absent. -/
def envNoKey : Env := { serverKey := none, gatewayToken := some "snap-token" }

/-- A fixed calendar day used by the concrete scenarios. -/
def jan17 : DateD := { year := 2025, month := 1, day := 17 }

/-- A product row used by the confirmation scenarios. -/
def wProduct : Product := { id := 1, name := "Kopi", price := 1000, stock := 10, isActive := true }

/-- A committed order awaiting payment, with one line of quantity 3 on
product 1. -/
def wOrder : Order :=
  { id := 5, code := "ORD-20250117-001", queueNumber := "001", diningType := .dineIn,
    status := .awaitingPayment, subtotal := 3000, discount := 0, tax := 0, total := 3000,
    customerId := 7, createdDate := jan17, closedAt := none,
    items := [{ productId := 1, qty := 3, price := 1000, total := 3000 }] }

/-- Database holding wProduct and the committed order wOrder. -/
def wDb : DB := { products := [wProduct], carts := [], orders := [wOrder], nextId := 6 }

/-! ### Claim theorems -/

/-- C1: payment confirmation is idempotent.  For an order in status
AWAITING_PAYMENT, the first POST /orders/{code} answers ok, sets the order
to PAID with a closure timestamp, and lowers every product's stock by
exactly the summed quantities of the order lines referencing it; a second
sequential confirmation answers ok with already:true and changes nothing,
so the total decrement is one quantity's worth per line, not two. -/
theorem c1_confirm_idempotent (now now2 : Nat) (code : String) (db : DB) (o : Order)
    (h1 : findOrder code db = some o) (h2 : o.status = .awaitingPayment) :
    (confirm now code db).1 = .ok ∧
    findOrder code (confirm now code db).2 =
      some { o with status := .paid, closedAt := some now } ∧
    (∀ pid, stockOf pid (confirm now code db).2.products =
      (stockOf pid db.products).map (fun s => s - (lineSum pid o.items : Int))) ∧
    confirm now2 code (confirm now code db).2 = (.already, (confirm now code db).2) := by
  have hne : (o.status == OrderStatus.paid) = false := by rw [h2]; rfl
  have hc : confirm now code db = (.ok, confirmTx o now db) := by
    simp only [confirm, h1, hne, Bool.false_eq_true, if_false]
  have hfo : findOrder code (confirmTx o now db) =
      some { o with status := .paid, closedAt := some now } := by
    show ((setPaid o.id now db.orders).find? (fun x => x.code == code)) = _
    exact find?_setPaid now h1
  refine ⟨by rw [hc], ?_, ?_, ?_⟩
  · rw [hc]
    exact hfo
  · intro pid
    rw [hc]
    exact stockOf_applyDecrements o.items db.products pid
  · rw [hc]
    show confirm now2 code (confirmTx o now db) = (.already, confirmTx o now db)
    simp [confirm, hfo]

/-- Witness for C1 on the concrete database wDb: the first confirmation
answers ok and drops product 1 from stock 10 to 7, the second answers
already:true and leaves the state untouched. -/
theorem c1_witness :
    (confirm 11 "ORD-20250117-001" wDb).1 = .ok ∧
    stockOf 1 (confirm 11 "ORD-20250117-001" wDb).2.products = some 7 ∧
    confirm 12 "ORD-20250117-001" (confirm 11 "ORD-20250117-001" wDb).2 =
      (.already, (confirm 11 "ORD-20250117-001" wDb).2) := by
  obtain ⟨ha, hb, hst, hd⟩ :=
    c1_confirm_idempotent 11 12 "ORD-20250117-001" wDb wOrder (by decide) (by decide)
  refine ⟨ha, ?_, hd⟩
  rw [hst 1]
  decide

/-- C3: checkout precondition failures have no partial effects.  An absent
or empty cart answers 409 Keranjang kosong with the state unchanged; a
validation failure (first inactive product, or first line whose quantity
exceeds current stock, in snapshot order) answers the corresponding 409
with the state unchanged: no order, no order lines, and the cart is kept. -/
theorem c3_precondition_no_effects (env : Env) (today : DateD) (uid : Nat)
    (dt : DiningType) (pc : PaymentChoice) (db : DB) :
    ((findCart uid db = none ∨ (∃ c, findCart uid db = some c ∧ c.items = [])) →
      checkout env today uid dt pc db = (.err 409 "Keranjang kosong.", db)) ∧
    (∀ c e, findCart uid db = some c → c.items ≠ [] →
      validateItems (snapshotOf c db) = some e →
      checkout env today uid dt pc db = (vErrResp e, db)) := by
  constructor
  · rintro (h | ⟨c, hc, hempty⟩)
    · simp only [checkout, h]
    · simp only [checkout, hc, hempty, List.isEmpty_nil, if_true]
  · intro c e hc hne hv
    have hie : c.items.isEmpty = false := by
      cases hi : c.items with
      | nil => exact absurd hi hne
      | cons a l => rfl
    simp only [checkout, hc, hie, Bool.false_eq_true, if_false, hv]

/-- Witness for C3: an empty-cart checkout answers 409 Keranjang kosong
without side effects, and a cart asking for quantity 4 of a product with
stock 3 answers the insufficient-stock 409 without side effects. -/
theorem c3_witness :
    checkout envOk jan17 9 .dineIn .cash
        { products := [], carts := [{ customerId := 9, items := [] }], orders := [], nextId := 1 } =
      (.err 409 "Keranjang kosong.",
        { products := [], carts := [{ customerId := 9, items := [] }], orders := [], nextId := 1 }) ∧
    checkout envOk jan17 9 .dineIn .cash
        { products := [{ id := 4, name := "Sate", price := 20000, stock := 3, isActive := true }],
          carts := [{ customerId := 9, items := [{ productId := 4, qty := 4 }] }],
          orders := [], nextId := 1 } =
      (.err 409 "Stok Sate tidak mencukupi.",
        { products := [{ id := 4, name := "Sate", price := 20000, stock := 3, isActive := true }],
          carts := [{ customerId := 9, items := [{ productId := 4, qty := 4 }] }],
          orders := [], nextId := 1 }) := by
  constructor
  · exact (c3_precondition_no_effects envOk jan17 9 .dineIn .cash _).1
      (Or.inr ⟨{ customerId := 9, items := [] }, by decide, rfl⟩)
  · have h := (c3_precondition_no_effects envOk jan17 9 .dineIn .cash
      { products := [{ id := 4, name := "Sate", price := 20000, stock := 3, isActive := true }],
        carts := [{ customerId := 9, items := [{ productId := 4, qty := 4 }] }],
        orders := [], nextId := 1 }).2
      { customerId := 9, items := [{ productId := 4, qty := 4 }] }
      (.insufficient "Sate") (by decide) (by decide) (by decide)
    exact h

/-- C10: DELETE /api/cart always answers ok:true whether or not a cart
exists (the delete error is swallowed), and is idempotent: a second
sequential call answers ok:true and leaves the state of the first call
unchanged. -/
theorem c10_delete_cart_idempotent (uid : Nat) (db : DB) :
    (deleteCartRoute uid db).1 = { ok := true } ∧
    deleteCartRoute uid (deleteCartRoute uid db).2 =
      ({ ok := true }, (deleteCartRoute uid db).2) := by
  cases hf : findCart uid db with
  | none =>
    have h1 : deleteCartRoute uid db = ({ ok := true }, db) := by
      unfold deleteCartRoute tryDeleteCart
      rw [hf]
    refine ⟨by rw [h1], ?_⟩
    rw [h1]
    show deleteCartRoute uid db = ({ ok := true }, db)
    exact h1
  | some c =>
    have h1 : deleteCartRoute uid db =
        ({ ok := true }, { db with carts := db.carts.filter (fun x => !(x.customerId == uid)) }) := by
      unfold deleteCartRoute tryDeleteCart
      rw [hf]
    have h2 : findCart uid { db with carts := db.carts.filter (fun x => !(x.customerId == uid)) } = none := by
      show (db.carts.filter (fun x => !(x.customerId == uid))).find? (fun x => x.customerId == uid) = none
      exact find?_filter_out_none (fun x => x.customerId == uid) db.carts
    have h3 : deleteCartRoute uid { db with carts := db.carts.filter (fun x => !(x.customerId == uid)) } =
        ({ ok := true }, { db with carts := db.carts.filter (fun x => !(x.customerId == uid)) }) := by
      unfold deleteCartRoute tryDeleteCart
      rw [h2]
    refine ⟨by rw [h1], ?_⟩
    rw [h1]
    exact h3

theorem findProduct_setPrice_name (pid0 q pid : Nat) (ps : List Product) :
    ((ps.map (priceUpdate pid0 q)).find? (fun p => p.id == pid)).map (fun p => p.name) =
      (ps.find? (fun p => p.id == pid)).map (fun p => p.name) := by
  rw [find?_map_pred_preserved (priceUpdate pid0 q) (fun p => p.id == pid)
    (fun p => by unfold priceUpdate; split <;> rfl)]
  cases h : ps.find? (fun p => p.id == pid) with
  | none => rfl
  | some p =>
    rw [Option.map_some', Option.map_some', Option.map_some']
    show some (priceUpdate pid0 q p).name = some p.name
    unfold priceUpdate
    split <;> rfl

/-- C7: price locking.  Changing a product's catalog price (at any point
after checkout, before or after confirmation) leaves the GET
/orders/{code} response — the recorded unit prices, line totals and the
order total copied at checkout time — completely unchanged. -/
theorem c7_price_locking (db : DB) (uid : Nat) (code : String) (pid q : Nat) :
    getOrder uid code (setPrice pid q db) = getOrder uid code db := by
  unfold getOrder setPrice
  cases h : db.orders.find? (fun o => o.code == code && o.customerId == uid) with
  | none => rfl
  | some o =>
    rw [Option.map_some', Option.map_some']
    congr 1
    congr 1
    apply List.map_congr_left
    intro it _
    have hname :
        ((findProduct it.productId (db.products.map (priceUpdate pid q))).map
          (fun p => p.name)).getD "" =
        ((findProduct it.productId db.products).map (fun p => p.name)).getD "" := by
      show (((db.products.map (priceUpdate pid q)).find?
        (fun p => p.id == it.productId)).map (fun p => p.name)).getD "" = _
      rw [findProduct_setPrice_name]
      rfl
    rw [hname]

/-- C4: for a present, non-empty, validated cart, checkout prices the
snapshot with subtotal as the sum of price times quantity over the lines,
discount and tax both zero, total equal to subtotal minus discount plus
tax, all in integer arithmetic; the CASH response carries the order id,
code and that total, and the committed order stores exactly these
amounts. -/
theorem c4_pricing (env : Env) (today : DateD) (uid : Nat) (dt : DiningType) (db : DB) (c : Cart)
    (hc : findCart uid db = some c) (hne : c.items ≠ [])
    (hv : validateItems (snapshotOf c db) = none)
    (hfresh : (db.orders.any (fun o => o.code == todayCode today db)) = false) :
    (checkout env today uid dt .cash db).1 =
      .okCash db.nextId (todayCode today db) (subtotalOf (snapshotOf c db)) ∧
    subtotalOf (snapshotOf c db) =
      ((snapshotOf c db).map (fun it => it.product.price * it.qty)).sum ∧
    (∃ ord, (checkout env today uid dt .cash db).2.orders = db.orders ++ [ord] ∧
      ord.subtotal = subtotalOf (snapshotOf c db) ∧ ord.discount = 0 ∧ ord.tax = 0 ∧
      ord.total = ord.subtotal - ord.discount + ord.tax ∧
      ord.status = .awaitingPayment ∧ ord.items = mkLines (snapshotOf c db)) := by
  have hie : c.items.isEmpty = false := by
    cases hi : c.items with
    | nil => exact absurd hi hne
    | cons a l => rfl
  have hfresh' :
      (db.orders.any (fun o => o.code == makeOrderCode today (getTodayQueueNumber today db))) =
        false := hfresh
  simp only [checkout, hc, hie, Bool.false_eq_true, if_false, hv, hfresh']
  refine ⟨rfl, subtotalOf_eq_sum _, ⟨_, rfl, rfl, rfl, rfl, rfl, rfl, rfl⟩⟩

/-- Cart and catalog of the worked pricing scenario: 2 times 25000 plus
1 times 15000. -/
def c4Db : DB :=
  { products := [{ id := 1, name := "Nasi Goreng", price := 25000, stock := 10, isActive := true },
                 { id := 2, name := "Es Teh", price := 15000, stock := 10, isActive := true }]
    carts := [{ customerId := 7, items := [{ productId := 1, qty := 2 }, { productId := 2, qty := 1 }] }]
    orders := []
    nextId := 1 }

/-- Witness for C4: the worked scenario yields subtotal = total = 65000 and
the CASH response ok with total 65000. -/
theorem c4_witness :
    (checkout envOk jan17 7 .dineIn .cash c4Db).1 = .okCash 1 "ORD-20250117-001" 65000 := by
  have h := c4_pricing envOk jan17 7 .dineIn c4Db
    { customerId := 7, items := [{ productId := 1, qty := 2 }, { productId := 2, qty := 1 }] }
    (by decide) (by decide) (by decide) (by decide)
  rw [h.1]
  rfl

/-- A calendar day on which 999 orders already exist. -/
def db999 : DB :=
  { products := []
    carts := []
    orders := (List.range 999).map (fun i =>
      { id := i, code := Nat.repr i, queueNumber := "x", diningType := .dineIn,
        status := .paid, subtotal := 0, discount := 0, tax := 0, total := 0,
        customerId := 0, createdDate := jan17, closedAt := none, items := [] })
    nextId := 999 }

set_option maxRecDepth 100000 in
/-- C5 counterexample: with 999 same-day orders the allocator renders
count + 1 = 1000, a 4-character queue number — padStart never truncates —
so the queue number is not 3 digits for every possible count. -/
theorem c5_counterexample :
    todayCount jan17 db999 = 999 ∧
    getTodayQueueNumber jan17 db999 = "1000" ∧
    (getTodayQueueNumber jan17 db999).length = 4 := by
  refine ⟨by decide, by decide, by decide⟩

/-- C5 (amended): the queue number is count + 1 rendered in decimal and
left-zero-padded to a minimum width of 3 — exactly 3 characters whenever
the decimal rendering of count + 1 is at most 3 digits (count + 1 up to
999) and longer otherwise — and the order code is exactly ORD-YYYYMMDD-
followed by that queue number. -/
theorem c5_queue_number_code_shape (today : DateD) (db : DB) :
    getTodayQueueNumber today db = padStart (Nat.repr (todayCount today db + 1)) 3 '0' ∧
    (getTodayQueueNumber today db).length = max 3 (Nat.repr (todayCount today db + 1)).length ∧
    ((Nat.repr (todayCount today db + 1)).length ≤ 3 →
      (getTodayQueueNumber today db).length = 3) ∧
    todayCode today db =
      "ORD-" ++ Nat.repr today.year ++ padStart (Nat.repr today.month) 2 '0'
        ++ padStart (Nat.repr today.day) 2 '0' ++ "-" ++ getTodayQueueNumber today db := by
  refine ⟨rfl, padStart_length _ _ _, ?_, rfl⟩
  intro h
  show (padStart (Nat.repr (todayCount today db + 1)) 3 '0').length = 3
  rw [padStart_length]
  omega

/-- Witness for C5: on an empty day the queue number is the 3-character
string 001 and the code is ORD-20250117-001. -/
theorem c5_witness :
    (getTodayQueueNumber jan17 { products := [], carts := [], orders := [], nextId := 0 }).length = 3 ∧
    todayCode jan17 { products := [], carts := [], orders := [], nextId := 0 } = "ORD-20250117-001" := by
  refine ⟨(c5_queue_number_code_shape jan17 _).2.2.1 (by decide), by decide⟩

/-- Database in which the code the allocator will produce next
(ORD-20250117-001, since no order was created on 2025-01-17 yet) is
already taken by an order created the previous day. -/
def c6Db : DB :=
  { products := [wProduct]
    carts := [{ customerId := 7, items := [{ productId := 1, qty := 1 }] }]
    orders := [{ id := 50, code := "ORD-20250117-001", queueNumber := "001", diningType := .dineIn,
                 status := .paid, subtotal := 0, discount := 0, tax := 0, total := 0,
                 customerId := 3, createdDate := { year := 2025, month := 1, day := 16 },
                 closedAt := none, items := [] }]
    nextId := 60 }

/-- C6 counterexample: on a code-uniqueness conflict the checkout makes a
single commit attempt and immediately surfaces the generic 500 internal
error with the state unchanged — no retry with a freshly allocated code is
performed and no distinguishable transient-conflict error exists. -/
theorem c6_counterexample :
    todayCode jan17 c6Db = "ORD-20250117-001" ∧
    c6Db.orders.map (fun o => o.code) = ["ORD-20250117-001"] ∧
    checkout envOk jan17 7 .dineIn .cash c6Db =
      (.err 500 "Terjadi kesalahan pada server.", c6Db) := by
  refine ⟨by decide, by decide, by decide⟩

/-- C6 (amended): when the order-commit transaction hits a uniqueness
violation on the allocated code, the whole unit rolls back — no order, no
order lines, no cart deletion, state exactly as before — and the checkout
surfaces the generic 500 server error to the caller at once, with no
internal retry. -/
theorem c6_no_retry_rollback (env : Env) (today : DateD) (uid : Nat) (dt : DiningType)
    (pc : PaymentChoice) (db : DB) (c : Cart)
    (hc : findCart uid db = some c) (hne : c.items ≠ [])
    (hv : validateItems (snapshotOf c db) = none)
    (hconf : (db.orders.any (fun o => o.code == todayCode today db)) = true) :
    checkout env today uid dt pc db = (.err 500 "Terjadi kesalahan pada server.", db) := by
  have hie : c.items.isEmpty = false := by
    cases hi : c.items with
    | nil => exact absurd hi hne
    | cons a l => rfl
  have hconf' :
      (db.orders.any (fun o => o.code == makeOrderCode today (getTodayQueueNumber today db))) =
        true := hconf
  simp only [checkout, hc, hie, Bool.false_eq_true, if_false, hv, hconf', if_true]

/-- Witness for C6 (amended) on the conflicting database c6Db. -/
theorem c6_witness :
    checkout envOk jan17 7 .takeAway .cash c6Db =
      (.err 500 "Terjadi kesalahan pada server.", c6Db) :=
  c6_no_retry_rollback envOk jan17 7 .takeAway .cash c6Db
    { customerId := 7, items := [{ productId := 1, qty := 1 }] }
    (by decide) (by decide) (by decide) (by decide)

/-- C8: for a CASHLESS checkout whose commit succeeds but whose gateway
step fails — credentials absent (500 configuration error) or the remote
token call throwing (caught as the generic 500) — the failure is surfaced
as the checkout's own failure while the committed order (status
AWAITING_PAYMENT, allocated code, snapshot lines, computed total) and the
cart deletion persist. -/
theorem c8_gateway_failure_order_persists (env : Env) (today : DateD) (uid : Nat)
    (dt : DiningType) (db : DB) (c : Cart)
    (hc : findCart uid db = some c) (hne : c.items ≠ [])
    (hv : validateItems (snapshotOf c db) = none)
    (hfresh : (db.orders.any (fun o => o.code == todayCode today db)) = false)
    (hgw : env.serverKey = none ∨ env.gatewayToken = none) :
    ((checkout env today uid dt .cashless db).1 =
        .err 500 "MIDTRANS_SERVER_KEY tidak dikonfigurasi." ∨
      (checkout env today uid dt .cashless db).1 =
        .err 500 "Terjadi kesalahan pada server.") ∧
    (∃ ord, (checkout env today uid dt .cashless db).2.orders = db.orders ++ [ord] ∧
      ord.status = .awaitingPayment ∧ ord.code = todayCode today db ∧
      ord.items = mkLines (snapshotOf c db) ∧
      ord.total = subtotalOf (snapshotOf c db) - 0 + 0) ∧
    findCart uid (checkout env today uid dt .cashless db).2 = none := by
  have hie : c.items.isEmpty = false := by
    cases hi : c.items with
    | nil => exact absurd hi hne
    | cons a l => rfl
  have hfresh' :
      (db.orders.any (fun o => o.code == makeOrderCode today (getTodayQueueNumber today db))) =
        false := hfresh
  have hfind : ∀ dbx : DB, dbx.carts = db.carts.filter (fun cc => !(cc.customerId == uid)) →
      findCart uid dbx = none := by
    intro dbx hx
    show dbx.carts.find? (fun x => x.customerId == uid) = none
    rw [hx]
    exact find?_filter_out_none (fun x => x.customerId == uid) db.carts
  rcases hgw with hk | ht
  · simp only [checkout, hc, hie, Bool.false_eq_true, if_false, hv, hfresh', hk]
    exact ⟨Or.inl trivial, ⟨_, rfl, rfl, rfl, rfl, rfl⟩, hfind _ rfl⟩
  · cases hk : env.serverKey with
    | none =>
      simp only [checkout, hc, hie, Bool.false_eq_true, if_false, hv, hfresh', hk]
      exact ⟨Or.inl trivial, ⟨_, rfl, rfl, rfl, rfl, rfl⟩, hfind _ rfl⟩
    | some k =>
      simp only [checkout, hc, hie, Bool.false_eq_true, if_false, hv, hfresh', hk, ht]
      exact ⟨Or.inr trivial, ⟨_, rfl, rfl, rfl, rfl, rfl⟩, hfind _ rfl⟩

/-- Witness for C8: with the server key absent, the cashless checkout of
the worked cart surfaces the configuration 500 yet the committed order is
in place, awaiting payment, and the cart is gone. -/
theorem c8_witness :
    (∃ ord, (checkout envNoKey jan17 7 .dineIn .cashless c4Db).2.orders = [] ++ [ord] ∧
      ord.status = .awaitingPayment) ∧
    (checkout envNoKey jan17 7 .dineIn .cashless c4Db).1 =
      .err 500 "MIDTRANS_SERVER_KEY tidak dikonfigurasi." ∧
    findCart 7 (checkout envNoKey jan17 7 .dineIn .cashless c4Db).2 = none := by
  obtain ⟨h1, ⟨ord, ho1, ho2, _, _, _⟩, h3⟩ :=
    c8_gateway_failure_order_persists envNoKey jan17 7 .dineIn c4Db
      { customerId := 7, items := [{ productId := 1, qty := 2 }, { productId := 2, qty := 1 }] }
      (by decide) (by decide) (by decide) (by decide) (Or.inl rfl)
  refine ⟨⟨ord, ho1, ho2⟩, ?_, h3⟩
  rcases h1 with h | h
  · exact h
  · exact absurd h (by decide)

/-- The order row the checkout transaction inserts for a cart snapshot. -/
def committedOrder (today : DateD) (uid : Nat) (dt : DiningType) (db : DB) (c : Cart) : Order :=
  { id := db.nextId
    code := todayCode today db
    queueNumber := getTodayQueueNumber today db
    diningType := dt
    status := .awaitingPayment
    subtotal := subtotalOf (snapshotOf c db)
    discount := 0
    tax := 0
    total := subtotalOf (snapshotOf c db) - 0 + 0
    customerId := uid
    createdDate := today
    closedAt := none
    items := mkLines (snapshotOf c db) }

/-- The database state right after a successful checkout commit: the order
appended, the cart deleted, the id generator advanced. -/
def committedDB (today : DateD) (uid : Nat) (dt : DiningType) (db : DB) (c : Cart) : DB :=
  { db with
      orders := db.orders ++ [committedOrder today uid dt db c]
      carts := db.carts.filter (fun cc => !(cc.customerId == uid))
      nextId := db.nextId + 1 }

theorem checkout_cash_committed (env : Env) (today : DateD) (uid : Nat) (dt : DiningType)
    (db : DB) (c : Cart)
    (hc : findCart uid db = some c) (hne : c.items ≠ [])
    (hv : validateItems (snapshotOf c db) = none)
    (hfresh : (db.orders.any (fun o => o.code == todayCode today db)) = false) :
    checkout env today uid dt .cash db =
      (.okCash db.nextId (todayCode today db) (subtotalOf (snapshotOf c db) - 0 + 0),
        committedDB today uid dt db c) := by
  have hie : c.items.isEmpty = false := by
    cases hi : c.items with
    | nil => exact absurd hi hne
    | cons a l => rfl
  have hfresh' :
      (db.orders.any (fun o => o.code == makeOrderCode today (getTodayQueueNumber today db))) =
        false := hfresh
  simp only [checkout, hc, hie, Bool.false_eq_true, if_false, hv, hfresh']
  rfl

theorem findOrder_committedDB (today : DateD) (uid : Nat) (dt : DiningType)
    (db : DB) (c : Cart)
    (hfresh : (db.orders.any (fun o => o.code == todayCode today db)) = false) :
    findOrder (todayCode today db) (committedDB today uid dt db c) =
      some (committedOrder today uid dt db c) := by
  show ((db.orders ++ [committedOrder today uid dt db c]).find?
    (fun o => o.code == todayCode today db)) = _
  rw [find?_append_left_none]
  · rw [List.find?_cons]
    have hcode : ((committedOrder today uid dt db c).code == todayCode today db) = true :=
      beq_self_eq_true _
    rw [hcode]
  · rw [List.find?_eq_none]
    intro x hx
    have := List.any_eq_false.mp hfresh x hx
    simpa using this

/-- Database with a single product of stock 3 and two customer carts each
requesting quantity 3 of it. -/
def c2Db : DB :=
  { products := [{ id := 1, name := "Ayam Bakar", price := 1000, stock := 3, isActive := true }]
    carts := [{ customerId := 7, items := [{ productId := 1, qty := 3 }] },
              { customerId := 8, items := [{ productId := 1, qty := 3 }] }]
    orders := []
    nextId := 100 }

/-- State after customer 7's checkout of c2Db. -/
def c2Db1 : DB := (checkout envOk jan17 7 .dineIn .cash c2Db).2

/-- State after customer 8's checkout of c2Db1. -/
def c2Db2 : DB := (checkout envOk jan17 8 .dineIn .cash c2Db1).2

/-- State after confirming customer 7's order. -/
def c2Db3 : DB := (confirm 19 "ORD-20250117-001" c2Db2).2

/-- State after confirming customer 8's order. -/
def c2Db4 : DB := (confirm 20 "ORD-20250117-002" c2Db3).2

/-- C2 counterexample: stock is only checked at checkout and decremented
unconditionally at confirmation, so two checkouts validated against the
same stock of 3 both commit, both confirmations succeed, and the product's
stock ends at -3, which is negative. -/
theorem c2_counterexample :
    (checkout envOk jan17 7 .dineIn .cash c2Db).1 = .okCash 100 "ORD-20250117-001" 3000 ∧
    (checkout envOk jan17 8 .dineIn .cash c2Db1).1 = .okCash 101 "ORD-20250117-002" 3000 ∧
    (confirm 19 "ORD-20250117-001" c2Db2).1 = .ok ∧
    (confirm 20 "ORD-20250117-002" c2Db3).1 = .ok ∧
    stockOf 1 c2Db4.products = some (-3) := by
  refine ⟨by decide, by decide, by decide, by decide, by decide⟩

/-- C2 (amended): in the absence of overlapping soft reservations the
invariant holds — starting from a state with no negative stock, a single
checkout of a cart with at most one line per product, immediately followed
by the confirmation of its order, leaves every product's stock
non-negative (validation guarantees each requested quantity is at most the
current stock, and confirmation subtracts exactly those quantities). -/
theorem c2_single_order_stock_nonneg (env : Env) (today : DateD) (now : Nat) (uid : Nat)
    (dt : DiningType) (db : DB) (c : Cart)
    (hstock : ∀ p ∈ db.products, 0 ≤ p.stock)
    (hc : findCart uid db = some c)
    (hnd : (c.items.map (fun it => it.productId)).Nodup)
    (hne : c.items ≠ [])
    (hv : validateItems (snapshotOf c db) = none)
    (hfresh : (db.orders.any (fun o => o.code == todayCode today db)) = false) :
    (confirm now (todayCode today db) (checkout env today uid dt .cash db).2).1 = .ok ∧
    (∀ pid s, stockOf pid
        (confirm now (todayCode today db) (checkout env today uid dt .cash db).2).2.products =
          some s → 0 ≤ s) := by
  have hck := checkout_cash_committed env today uid dt db c hc hne hv hfresh
  have hfo := findOrder_committedDB today uid dt db c hfresh
  have hst : ((committedOrder today uid dt db c).status == OrderStatus.paid) = false := rfl
  have hcf : confirm now (todayCode today db) (committedDB today uid dt db c) =
      (.ok, confirmTx (committedOrder today uid dt db c) now (committedDB today uid dt db c)) := by
    simp only [confirm, hfo, hst, Bool.false_eq_true, if_false]
  constructor
  · simp only [hck, hcf]
  · intro pid s hs
    simp only [hck, hcf] at hs
    have hprod : (confirmTx (committedOrder today uid dt db c) now
        (committedDB today uid dt db c)).products =
        applyDecrements (mkLines (snapshotOf c db)) db.products := rfl
    rw [hprod, stockOf_applyDecrements] at hs
    cases h0 : stockOf pid db.products with
    | none => rw [h0] at hs; cases hs
    | some s0 =>
      rw [h0, Option.map_some'] at hs
      injection hs with hs
      have hs0 : 0 ≤ s0 := by
        unfold stockOf at h0
        cases hf : findProduct pid db.products with
        | none => rw [hf] at h0; cases h0
        | some p =>
          rw [hf, Option.map_some'] at h0
          injection h0 with h0
          rw [← h0]
          exact hstock p (List.mem_of_find?_eq_some hf)
      by_cases hex : ∃ l ∈ mkLines (snapshotOf c db), l.productId = pid
      · obtain ⟨l, hl, hlp⟩ := hex
        have hnd2 : ((mkLines (snapshotOf c db)).map (fun l => l.productId)).Nodup := by
          have hsub : ((mkLines (snapshotOf c db)).map (fun l => l.productId)).Sublist
              (c.items.map (fun it => it.productId)) := mkLines_pid_sublist c.items db
          exact List.Nodup.sublist hsub hnd
        have hsum : lineSum pid (mkLines (snapshotOf c db)) = l.qty := lineSum_single hnd2 hl hlp
        obtain ⟨sit, hsit, hline⟩ : ∃ sit ∈ snapshotOf c db,
            ({ productId := sit.product.id, qty := sit.qty, price := sit.product.price
               total := sit.product.price * sit.qty } : OrderLine) = l := by
          simpa [mkLines] using hl
        have hqb : (sit.qty : Int) ≤ sit.product.stock := (validateItems_none_bounds hv sit hsit).2
        have hpid : sit.product.id = pid := by rw [← hlp, ← hline]
        have hq : l.qty = sit.qty := by rw [← hline]
        have hfp := snapshot_findProduct sit hsit
        have hso : stockOf pid db.products = some sit.product.stock := by
          unfold stockOf
          rw [← hpid, hfp, Option.map_some']
        rw [h0] at hso
        injection hso with hso
        rw [← hs, hsum, hq, hso]
        omega
      · push_neg at hex
        have hz : lineSum pid (mkLines (snapshotOf c db)) = 0 := lineSum_eq_zero hex
        rw [← hs, hz]
        omega

/-- Witness for C2 (amended): checking out the worked cart and confirming
its order leaves product 1 at stock 8, non-negative. -/
theorem c2_witness :
    (confirm 30 (todayCode jan17 c4Db) (checkout envOk jan17 7 .dineIn .cash c4Db).2).1 = .ok ∧
    stockOf 1 (confirm 30 (todayCode jan17 c4Db)
      (checkout envOk jan17 7 .dineIn .cash c4Db).2).2.products = some 8 ∧
    (0 : Int) ≤ 8 := by
  obtain ⟨h1, h2⟩ := c2_single_order_stock_nonneg envOk jan17 30 7 .dineIn c4Db
    { customerId := 7, items := [{ productId := 1, qty := 2 }, { productId := 2, qty := 1 }] }
    (by decide) (by decide) (by decide) (by decide) (by decide) (by decide)
  exact ⟨h1, by decide, h2 1 8 (by decide)⟩

/-- C9: the source checks the order's status before opening the
transaction (a separate pre-check), so two confirmations of the same code
interleaved as pre-check, pre-check, transaction, transaction both pass
the PAID check against the initial state and both run the decrementing
transaction: product 1 falls from stock 10 to 4 — two quantities' worth —
where the claim requires the check-and-transition to be atomic with the
decrement so that stock falls exactly once (to 7). -/
theorem c9_double_decrement_interleaving :
    findOrder "ORD-20250117-001" wDb = some wOrder ∧
    (wOrder.status == OrderStatus.paid) = false ∧
    stockOf 1 (confirmTx wOrder 11 wDb).products = some 7 ∧
    stockOf 1 (confirmTx wOrder 12 (confirmTx wOrder 11 wDb)).products = some 4 := by
  refine ⟨by decide, by decide, by decide, by decide⟩

end Resto
